import Mathlib

/-!
Shallow embedding of the `vnpy_ak` data-loader layer
(`src/vnpy/dataloader/base.py`, `src/vnpy/dataloader/akshare_downloader.py`,
`src/dataloader/yfinance_downloader.py`, `src/dataloader/vnpy_downloader.py`).

Modelling conventions:
* Python floats are modelled as `Rat`; machine rounding plays no role in the
  properties studied here.
* `datetime` values are modelled as `Nat` date codes `YYYYMMDD` (the adapters
  only ever compare and transport them).  `vnpy.trader.database.convert_tz`
  only attaches a timezone and is modelled as the identity on the code.
* Pandas cells are modelled by `PyVal`: `.num q` is a cell on which Python's
  `float(...)` succeeds with value `q`, `.str s` is a cell on which
  `float(...)` raises (a non-numeric string), `.dt c` is a pandas `Timestamp`
  cell (on which `float(...)` raises as well, and whose `str`/`to_datetime`
  round trip preserves the instant).
* Fallible Python code (a `try`/`except` region) is modelled with `Option`:
  `none` is a raised exception.
-/

set_option autoImplicit false

namespace VnpyAk

/-- The `vnpy.trader.constant.Interval` enum (external dependency of the
repository; the repository's own tests reference `MINUTE`, `HOUR`, `DAILY`
and `WEEKLY`). -/
inductive Interval where
  | MINUTE
  | HOUR
  | DAILY
  | WEEKLY
  | TICK
  deriving DecidableEq, BEq, Repr

/-- Python's `str()` of an `Interval` member, as interpolated into f-strings. -/
def intervalStr : Interval → String
  | .MINUTE => "Interval.MINUTE"
  | .HOUR => "Interval.HOUR"
  | .DAILY => "Interval.DAILY"
  | .WEEKLY => "Interval.WEEKLY"
  | .TICK => "Interval.TICK"

/-- The members of `vnpy.trader.constant.Exchange` used by the repository
(the three US venues, the SMART routing pseudo-exchange, and SSE which the
adapters do not support). -/
inductive Exchange where
  | NYSE
  | NASDAQ
  | AMEX
  | SMART
  | SSE
  deriving DecidableEq, BEq, Repr

/-- Python's `str()` of an `Exchange` member, as interpolated into f-strings. -/
def exchangeStr : Exchange → String
  | .NYSE => "Exchange.NYSE"
  | .NASDAQ => "Exchange.NASDAQ"
  | .AMEX => "Exchange.AMEX"
  | .SMART => "Exchange.SMART"
  | .SSE => "Exchange.SSE"

/-- The `.value` attribute of an `Exchange` member (used by `vt_symbol`). -/
def exchangeValue : Exchange → String
  | .NYSE => "NYSE"
  | .NASDAQ => "NASDAQ"
  | .AMEX => "AMEX"
  | .SMART => "SMART"
  | .SSE => "SSE"

/-- `vnpy.trader.object.BarData` (the fields the data loaders populate). -/
structure BarData where
  symbol : String
  exchange : Exchange
  datetime : Nat
  interval : Interval
  volume : Rat
  turnover : Rat
  open_interest : Rat
  open_price : Rat
  high_price : Rat
  low_price : Rat
  close_price : Rat
  gateway_name : String
  deriving DecidableEq, Repr

/-- `DownloadRequest` from `base.py` (the `vt_symbol` derived field is the
separate function `DownloadRequest.vt_symbol`).  `start_date`/`end_date` are
optional date codes. -/
structure DownloadRequest where
  symbol : String
  exchange : Exchange
  start_date : Option Nat
  end_date : Option Nat
  interval : Interval
  deriving DecidableEq, Repr

/-- `DownloadRequest.__post_init__`: `self.vt_symbol = f"{self.symbol}.{self.exchange.value}"`. -/
def DownloadRequest.vt_symbol (r : DownloadRequest) : String :=
  r.symbol ++ "." ++ exchangeValue r.exchange

/-- `DownloadResult` from `base.py` (field names as in the source). -/
structure DownloadResult where
  request : DownloadRequest
  bars : List BarData
  success : Bool
  error_msg : String
  total_count : Nat
  deriving DecidableEq, Repr

/-- Construction of a `DownloadResult`, including `__post_init__`:
if `bars` is non-empty then `total_count` is set to `len(bars)` and
`success` to `True`; otherwise only `success` is set to `False`
(`total_count` keeps the constructor argument). -/
def mkDownloadResult (request : DownloadRequest) (bars : List BarData)
    (success : Bool) (error_msg : String) (total_count : Nat) : DownloadResult :=
  if bars.isEmpty then
    { request := request, bars := bars, success := false,
      error_msg := error_msg, total_count := total_count }
  else
    { request := request, bars := bars, success := true,
      error_msg := error_msg, total_count := bars.length }

namespace BaseStockDownloader

/-- `BaseStockDownloader.is_support_interval`: the base-class default body is
`return True`, unconditionally. -/
def is_support_interval (_ : Interval) : Bool :=
  true

/-- `BaseStockDownloader.get_supported_intervals`. -/
def get_supported_intervals : List Interval :=
  [Interval.DAILY, Interval.HOUR, Interval.MINUTE]

/-- `BaseStockDownloader.get_supported_exchanges`. -/
def get_supported_exchanges : List Exchange :=
  [Exchange.NYSE, Exchange.NASDAQ, Exchange.AMEX]

/-- `BaseStockDownloader.validate_request`.  The two `self.`-dispatched
capabilities (`get_supported_exchanges`, `is_support_interval`) are passed as
parameters so the same definition serves every subclass. -/
def validate_request (exchanges : List Exchange)
    (supportsInterval : Interval → Bool) (r : DownloadRequest) : Bool × String :=
  if exchanges.contains r.exchange = false then
    (false, "不支持的交易所: " ++ exchangeStr r.exchange)
  else if supportsInterval r.interval = false then
    (false, "不支持的时间间隔: " ++ intervalStr r.interval)
  else if r.symbol = "" then
    (false, "股票代码不能为空")
  else
    (true, "")

end BaseStockDownloader

/-- A pandas cell value (see the module comment for the convention). -/
inductive PyVal where
  | num (q : Rat)
  | str (s : String)
  | dt (code : Nat)
  deriving DecidableEq, Repr

/-- Python's `float(...)` applied to a cell: succeeds exactly on numeric
cells (`.str` models a cell whose conversion raises `ValueError`;
`float(Timestamp)` raises `TypeError`). -/
def pyFloat : PyVal → Option Rat
  | .num q => some q
  | .str _ => none
  | .dt _ => none

/-- A pandas row, as an association list from column name to cell. -/
abbrev PyRow := List (String × PyVal)

/-- Lookup of a cell by column name. -/
def pyRowGet (row : PyRow) (k : String) : Option PyVal :=
  (row.find? (fun p => p.1 == k)).map (fun p => p.2)

/-- `row.get(k, default)`. -/
def pyRowGetD (row : PyRow) (k : String) (dflt : PyVal) : PyVal :=
  match pyRowGet row k with
  | some v => v
  | none => dflt

/-- A pandas `DataFrame` as the akshare adapter sees it: a column list and
rows indexed by the (stringified) index. -/
structure AkDF where
  columns : List String
  rows : List (String × PyRow)
  deriving DecidableEq, Repr

/-- Decimal digit of a character, if any. -/
def digitVal (c : Char) : Option Nat :=
  if c.isDigit then some (c.toNat - 48) else none

/-- Parse a run of characters as a decimal number, failing on a non-digit
(as `strptime` does). -/
def parseDigits (cs : List Char) : Option Nat :=
  cs.foldlM (fun acc c => (digitVal c).map (fun d => acc * 10 + d)) 0

/-- Assemble a `YYYYMMDD` date code, enforcing the field ranges that
`strptime` enforces (month 1..12, day 1..31). -/
def dateCode (y m d : Nat) : Option Nat :=
  if 1 ≤ m ∧ m ≤ 12 ∧ 1 ≤ d ∧ d ≤ 31 then some (y * 10000 + m * 100 + d)
  else none

/-- The date-string dispatch of `_convert_ak_data_to_vnpy`: length 8 is
parsed as `%Y%m%d`, length 10 as `%Y-%m-%d`; any other shape goes to
`pd.to_datetime`, whose general parser is modelled conservatively as a
failure (no claim exercises other shapes). -/
def parseDateStr (s : String) : Option Nat :=
  let cs := s.toList
  if s.length = 8 then do
    let y ← parseDigits (cs.take 4)
    let m ← parseDigits ((cs.drop 4).take 2)
    let d ← parseDigits (cs.drop 6)
    dateCode y m d
  else if s.length = 10 then
    match cs with
    | [y1, y2, y3, y4, h1, m1, m2, h2, d1, d2] =>
      if h1 = '-' ∧ h2 = '-' then do
        let y ← parseDigits [y1, y2, y3, y4]
        let m ← parseDigits [m1, m2]
        let d ← parseDigits [d1, d2]
        dateCode y m d
      else none
    | _ => none
  else none

/-- Date extraction from a cell: a `Timestamp` cell round-trips through
`str`/`pd.to_datetime` to the same instant; a string cell goes through the
length dispatch; a numeric cell is stringified first. -/
def parseDateCell : PyVal → Option Nat
  | .dt c => some c
  | .str s => parseDateStr s
  | .num q => parseDateStr (toString q)

namespace AkshareStockDownloader

/-- `AkshareStockDownloader.get_supported_intervals`: daily only. -/
def get_supported_intervals : List Interval :=
  [Interval.DAILY]

/-- `AkshareStockDownloader.is_support_interval`: membership in
`get_supported_intervals`. -/
def is_support_interval (i : Interval) : Bool :=
  get_supported_intervals.contains i

/-- `AkshareStockDownloader.get_supported_exchanges`. -/
def get_supported_exchanges : List Exchange :=
  [Exchange.NYSE, Exchange.NASDAQ, Exchange.AMEX]

/-- `self.validate_request` as dispatched on an `AkshareStockDownloader`. -/
def validate_request (r : DownloadRequest) : Bool × String :=
  BaseStockDownloader.validate_request get_supported_exchanges is_support_interval r

/-- The date cell chosen for a row: column `date` first, then `Date`, else
the stringified index (`row[c]` cannot miss when column `c` exists, so the
lookup default is immaterial). -/
def akDateCell (cols : List String) (idx : String) (row : PyRow) : PyVal :=
  if cols.contains "date" then pyRowGetD row "date" (PyVal.str "")
  else if cols.contains "Date" then pyRowGetD row "Date" (PyVal.str "")
  else PyVal.str idx

/-- `row.get(lo, row.get(hi, 0))`: the per-field lowercase-then-capitalized
fallback of `_convert_ak_data_to_vnpy`. -/
def akGetField (row : PyRow) (lo hi : String) : PyVal :=
  pyRowGetD row lo (pyRowGetD row hi (PyVal.num 0))

/-- The body of one iteration of the row loop in `_convert_ak_data_to_vnpy`
(the `try` region): `none` is a raised-and-caught per-row exception. -/
def convertAkRow (cols : List String) (symbol : String) (exchange : Exchange)
    (interval : Interval) (idx : String) (row : PyRow) : Option BarData := do
  let dtc ← parseDateCell (akDateCell cols idx row)
  let o ← pyFloat (akGetField row "open" "Open")
  let h ← pyFloat (akGetField row "high" "High")
  let l ← pyFloat (akGetField row "low" "Low")
  let c ← pyFloat (akGetField row "close" "Close")
  let v ← pyFloat (akGetField row "volume" "Volume")
  some { symbol := symbol, exchange := exchange, datetime := dtc,
         interval := interval, volume := v, turnover := 0, open_interest := 0,
         open_price := o, high_price := h, low_price := l, close_price := c,
         gateway_name := "akshare" }

/-- `AkshareStockDownloader._convert_ak_data_to_vnpy`: rows whose `try`
region raises are skipped (`continue`), the rest are collected in order;
a `None` or empty frame yields the empty list. -/
def convert_ak_data_to_vnpy (df : Option AkDF) (symbol : String)
    (exchange : Exchange) (interval : Interval) : List BarData :=
  match df with
  | none => []
  | some d => d.rows.filterMap (fun p => convertAkRow d.columns symbol exchange interval p.1 p.2)

/-- Date-range test used by the `df[df['date'] >= start]` / `<= end`
filtering. -/
def dateInRange (s e : Option Nat) (d : Nat) : Bool :=
  (match s with | none => true | some lo => decide (lo ≤ d)) &&
  (match e with | none => true | some hi => decide (d ≤ hi))

/-- `df['date'] = pd.to_datetime(df['date'])`: the date cell of a row is
replaced by the parsed `Timestamp`. -/
def rowSetDate (row : PyRow) (d : Nat) : PyRow :=
  row.map (fun p => if p.1 = "date" then ("date", PyVal.dt d) else p)

/-- The date-filter block of `download_bars` (executed when a start or end
date is present): converts the `date` column to timestamps and keeps the
rows inside the range.  The outer `none` is a raised exception (attribute
access on a `None` frame, or an unparseable date cell under
`pd.to_datetime`). -/
def akFilterByDate (s e : Option Nat) (df : Option AkDF) : Option (Option AkDF) :=
  if s.isNone && e.isNone then some df
  else
    match df with
    | none => none
    | some d =>
      if d.columns.contains "date" then do
        let parsed ← d.rows.mapM (fun p => do
          let dc ← parseDateCell (pyRowGetD p.2 "date" (PyVal.str ""))
          pure (p.1, rowSetDate p.2 dc, dc))
        let kept := parsed.filter (fun t => dateInRange s e t.2.2)
        pure (some { columns := d.columns, rows := kept.map (fun t => (t.1, t.2.1)) })
      else some (some d)

/-- Outcome of the provider-call block of `download_bars`:
`hist df` is `stock_us_hist` returning `df`; `fallback df` is
`stock_us_hist` raising `AttributeError` and `stock_us_daily` returning
`df`; `unavailable` is both endpoints raising `AttributeError`; `exn msg`
is any other exception raised inside the `try` region before filtering. -/
inductive AkApiOutcome where
  | hist (df : Option AkDF)
  | fallback (df : Option AkDF)
  | unavailable
  | exn (msg : String)
  deriving DecidableEq, Repr

/-- Placeholder for the stringified exception text of a date-filter fault
(the claims never inspect it). -/
def akFilterExnText : String := "filter error"

/-- `AkshareStockDownloader.download_bars`, parameterised by whether
`init_connection` has stored a client handle (`akInitialized`, the
`self.ak` truthiness test) and by the provider outcome. -/
def download_bars (akInitialized : Bool) (api : AkApiOutcome)
    (request : DownloadRequest) : DownloadResult :=
  let vr := validate_request request
  if vr.1 = false then
    mkDownloadResult request [] false vr.2 0
  else if akInitialized = false then
    mkDownloadResult request [] false "akshare未初始化，请先调用init_connection" 0
  else if request.interval ≠ Interval.DAILY then
    mkDownloadResult request [] false "akshare美股数据目前仅支持日线数据" 0
  else
    match api with
    | .unavailable =>
      mkDownloadResult request [] false "akshare美股数据接口不可用，请检查akshare版本" 0
    | .exn msg =>
      mkDownloadResult request [] false ("akshare数据下载失败: " ++ msg) 0
    | .hist df | .fallback df =>
      match akFilterByDate request.start_date request.end_date df with
      | none =>
        mkDownloadResult request [] false ("akshare数据下载失败: " ++ akFilterExnText) 0
      | some df2 =>
        let bars := convert_ak_data_to_vnpy df2 request.symbol request.exchange request.interval
        mkDownloadResult request bars (if bars.isEmpty then false else true)
          (if bars.isEmpty then "未获取到数据或股票代码不存在" else "") 0

/-- Comparison definition for the reachability analysis of the in-method
daily-only check: `download_bars` with the `request.interval != DAILY`
branch deleted, everything else verbatim. -/
def download_bars_skip_daily_check (akInitialized : Bool) (api : AkApiOutcome)
    (request : DownloadRequest) : DownloadResult :=
  let vr := validate_request request
  if vr.1 = false then
    mkDownloadResult request [] false vr.2 0
  else if akInitialized = false then
    mkDownloadResult request [] false "akshare未初始化，请先调用init_connection" 0
  else
    match api with
    | .unavailable =>
      mkDownloadResult request [] false "akshare美股数据接口不可用，请检查akshare版本" 0
    | .exn msg =>
      mkDownloadResult request [] false ("akshare数据下载失败: " ++ msg) 0
    | .hist df | .fallback df =>
      match akFilterByDate request.start_date request.end_date df with
      | none =>
        mkDownloadResult request [] false ("akshare数据下载失败: " ++ akFilterExnText) 0
      | some df2 =>
        let bars := convert_ak_data_to_vnpy df2 request.symbol request.exchange request.interval
        mkDownloadResult request bars (if bars.isEmpty then false else true)
          (if bars.isEmpty then "未获取到数据或股票代码不存在" else "") 0

end AkshareStockDownloader

/-- A pandas `DataFrame` as the yfinance adapter sees it: rows indexed by
timestamps (already modelled as date codes; the timezone localisation and
`convert_tz` pipeline preserves the instant and is modelled as identity). -/
structure YfDF where
  rows : List (Nat × PyRow)
  deriving DecidableEq, Repr

namespace YfinanceStockDownloader

/-- `YfinanceStockDownloader.get_supported_intervals`. -/
def get_supported_intervals : List Interval :=
  [Interval.MINUTE, Interval.HOUR, Interval.DAILY]

/-- `YfinanceStockDownloader.is_support_interval`: membership in
`get_supported_intervals`. -/
def is_support_interval (i : Interval) : Bool :=
  get_supported_intervals.contains i

/-- `YfinanceStockDownloader.get_supported_exchanges`. -/
def get_supported_exchanges : List Exchange :=
  [Exchange.NYSE, Exchange.NASDAQ, Exchange.AMEX, Exchange.SMART]

/-- `self.validate_request` as dispatched on a `YfinanceStockDownloader`. -/
def validate_request (r : DownloadRequest) : Bool × String :=
  BaseStockDownloader.validate_request get_supported_exchanges is_support_interval r

/-- One iteration of the row loop of `_convert_yf_data_to_vnpy` (this loop
has no per-row `try`, so a failure propagates to the caller). -/
def convertYfRow (symbol : String) (exchange : Exchange) (interval : Interval)
    (ts : Nat) (row : PyRow) : Option BarData := do
  let v ← pyFloat (pyRowGetD row "Volume" (PyVal.num 0))
  let o ← pyFloat (pyRowGetD row "Open" (PyVal.num 0))
  let h ← pyFloat (pyRowGetD row "High" (PyVal.num 0))
  let l ← pyFloat (pyRowGetD row "Low" (PyVal.num 0))
  let c ← pyFloat (pyRowGetD row "Close" (PyVal.num 0))
  some { symbol := symbol, exchange := exchange, datetime := ts,
         interval := interval, volume := v, turnover := 0, open_interest := 0,
         open_price := o, high_price := h, low_price := l, close_price := c,
         gateway_name := "yfinance" }

/-- `YfinanceStockDownloader._convert_yf_data_to_vnpy`: a `None` or empty
frame yields `[]`; otherwise every row is converted, and any row failure
raises out of the function (`none`). -/
def convert_yf_data_to_vnpy (df : Option YfDF) (symbol : String)
    (exchange : Exchange) (interval : Interval) : Option (List BarData) :=
  match df with
  | none => some []
  | some d =>
    if d.rows.isEmpty then some []
    else d.rows.mapM (fun p => convertYfRow symbol exchange interval p.1 p.2)

/-- Outcome of `ticker.history(...)`: a frame, or an exception. -/
inductive YfApiOutcome where
  | ok (df : Option YfDF)
  | exn (msg : String)
  deriving DecidableEq, Repr

/-- Placeholder for the stringified text of an exception raised inside the
row conversion (the claims never inspect it). -/
def yfConvertExnText : String := "conversion error"

/-- `YfinanceStockDownloader.download_bars`, parameterised by the `self.yf`
truthiness test and the provider outcome. -/
def download_bars (yfInitialized : Bool) (api : YfApiOutcome)
    (request : DownloadRequest) : DownloadResult :=
  let vr := validate_request request
  if vr.1 = false then
    mkDownloadResult request [] false vr.2 0
  else if yfInitialized = false then
    mkDownloadResult request [] false "yfinance未初始化，请先调用init_connection" 0
  else
    match api with
    | .exn msg =>
      mkDownloadResult request [] false ("yfinance数据下载失败: " ++ msg) 0
    | .ok df =>
      match convert_yf_data_to_vnpy df request.symbol request.exchange request.interval with
      | none =>
        mkDownloadResult request [] false ("yfinance数据下载失败: " ++ yfConvertExnText) 0
      | some bars =>
        mkDownloadResult request bars (if bars.isEmpty then false else true)
          (if bars.isEmpty then "未获取到数据或股票代码不存在" else "") 0

end YfinanceStockDownloader

namespace VnpyStockDownloader

/-- `VnpyStockDownloader.get_supported_intervals`. -/
def get_supported_intervals : List Interval :=
  [Interval.DAILY, Interval.HOUR, Interval.MINUTE]

/-- `VnpyStockDownloader.is_support_interval`: membership in
`get_supported_intervals`. -/
def is_support_interval (i : Interval) : Bool :=
  get_supported_intervals.contains i

/-- `VnpyStockDownloader.get_supported_exchanges`. -/
def get_supported_exchanges : List Exchange :=
  [Exchange.NYSE, Exchange.NASDAQ, Exchange.AMEX, Exchange.SMART]

/-- `self.validate_request` as dispatched on a `VnpyStockDownloader`. -/
def validate_request (r : DownloadRequest) : Bool × String :=
  BaseStockDownloader.validate_request get_supported_exchanges is_support_interval r

/-- The provenance pass of `download_bars`: a bar with a falsy (empty)
`gateway_name` gets the fixed fallback tag, every other bar is untouched
(the `hasattr` guard is always true on the dataclass). -/
def fixGatewayName (b : BarData) : BarData :=
  if b.gateway_name = "" then { b with gateway_name := "vnpy_datafeed" } else b

/-- Outcome of `self.datafeed.query_bar_history(...)`. -/
inductive VnpyFeedOutcome where
  | ok (bars : List BarData)
  | exn (msg : String)
  deriving DecidableEq, Repr

/-- `VnpyStockDownloader.download_bars`, parameterised by the
`self.datafeed` truthiness test and the feed outcome. -/
def download_bars (feedInitialized : Bool) (feed : VnpyFeedOutcome)
    (request : DownloadRequest) : DownloadResult :=
  let vr := validate_request request
  if vr.1 = false then
    mkDownloadResult request [] false vr.2 0
  else if feedInitialized = false then
    mkDownloadResult request [] false "数据源未初始化，请先调用init_connection" 0
  else
    match feed with
    | .exn msg =>
      mkDownloadResult request [] false ("数据下载失败: " ++ msg) 0
    | .ok bars =>
      let converted := bars.map fixGatewayName
      mkDownloadResult request converted (if converted.isEmpty then false else true)
        (if converted.isEmpty then "未获取到数据" else "") 0

end VnpyStockDownloader

/-! ### Concrete sample values used by witnesses and counterexamples -/

/-- A request that every adapter accepts. -/
def reqAAPL : DownloadRequest :=
  { symbol := "AAPL", exchange := Exchange.NYSE, start_date := none,
    end_date := none, interval := Interval.DAILY }

/-- A request with an unsupported exchange and an empty symbol. -/
def reqSSEempty : DownloadRequest :=
  { symbol := "", exchange := Exchange.SSE, start_date := none,
    end_date := none, interval := Interval.DAILY }

/-- A minute-interval request to the akshare adapter. -/
def reqMinute : DownloadRequest :=
  { symbol := "AAPL", exchange := Exchange.NYSE, start_date := none,
    end_date := none, interval := Interval.MINUTE }

/-- A sample bar. -/
def barSample : BarData :=
  { symbol := "AAPL", exchange := Exchange.NYSE, datetime := 20230101,
    interval := Interval.DAILY, volume := 1000, turnover := 0,
    open_interest := 0, open_price := 150, high_price := 155,
    low_price := 149, close_price := 154, gateway_name := "akshare" }

/-- Column list of a lowercase-named akshare frame. -/
def akLowerCols : List String :=
  ["date", "open", "high", "low", "close", "volume"]

/-- Column list of a capitalized-named akshare frame. -/
def akUpperCols : List String :=
  ["Date", "Open", "High", "Low", "Close", "Volume"]

/-- A row carrying the given OHLCV data under lowercase column names. -/
def akLowerRow (d : String) (o h l c v : Rat) : PyRow :=
  [("date", PyVal.str d), ("open", PyVal.num o), ("high", PyVal.num h),
   ("low", PyVal.num l), ("close", PyVal.num c), ("volume", PyVal.num v)]

/-- The same OHLCV data under capitalized column names. -/
def akUpperRow (d : String) (o h l c v : Rat) : PyRow :=
  [("Date", PyVal.str d), ("Open", PyVal.num o), ("High", PyVal.num h),
   ("Low", PyVal.num l), ("Close", PyVal.num c), ("Volume", PyVal.num v)]

/-- First well-formed row of the 3-row sample frame. -/
def akGoodRow1 : PyRow := akLowerRow "2023-01-01" 150 155 149 154 1000

/-- Malformed middle row: its `open` cell is a non-numeric string, so
`float(...)` raises on it. -/
def akBadRow : PyRow :=
  [("date", PyVal.str "2023-01-02"), ("open", PyVal.str "not_a_number"),
   ("high", PyVal.num 156), ("low", PyVal.num 150),
   ("close", PyVal.num 155), ("volume", PyVal.num 1100)]

/-- Third well-formed row of the 3-row sample frame. -/
def akGoodRow3 : PyRow := akLowerRow "2023-01-03" 152 158 151 157 1200

/-- A 3-row akshare frame whose middle row is malformed. -/
def akSampleDF : AkDF :=
  { columns := akLowerCols,
    rows := [("0", akGoodRow1), ("1", akBadRow), ("2", akGoodRow3)] }

/-- The bar produced from `akGoodRow1`. -/
def akBar1 : BarData :=
  { symbol := "AAPL", exchange := Exchange.NYSE, datetime := 20230101,
    interval := Interval.DAILY, volume := 1000, turnover := 0,
    open_interest := 0, open_price := 150, high_price := 155,
    low_price := 149, close_price := 154, gateway_name := "akshare" }

/-- The bar produced from `akGoodRow3`. -/
def akBar3 : BarData :=
  { symbol := "AAPL", exchange := Exchange.NYSE, datetime := 20230103,
    interval := Interval.DAILY, volume := 1200, turnover := 0,
    open_interest := 0, open_price := 152, high_price := 158,
    low_price := 151, close_price := 157, gateway_name := "akshare" }

/-- A feed bar that already carries a provenance tag. -/
def barExisting : BarData :=
  { symbol := "AAPL", exchange := Exchange.NYSE, datetime := 20230101,
    interval := Interval.DAILY, volume := 1000, turnover := 0,
    open_interest := 0, open_price := 150, high_price := 155,
    low_price := 149, close_price := 154, gateway_name := "existing_gateway" }

/-- A sibling feed bar with an empty provenance tag. -/
def barNoGw : BarData :=
  { symbol := "AAPL", exchange := Exchange.NYSE, datetime := 20230102,
    interval := Interval.DAILY, volume := 1100, turnover := 0,
    open_interest := 0, open_price := 151, high_price := 156,
    low_price := 150, close_price := 155, gateway_name := "" }

/-! ### Shared helper lemmas -/

/-- The first component of the result of a `mkDownloadResult` construction
carries the input bars unchanged. -/
theorem mkDownloadResult_bars (request : DownloadRequest) (bars : List BarData)
    (s : Bool) (m : String) (c : Nat) :
    (mkDownloadResult request bars s m c).bars = bars := by
  unfold mkDownloadResult
  split <;> rfl

/-- `mkDownloadResult` on an empty bar list just records the failure. -/
theorem mkDownloadResult_nil (request : DownloadRequest) (s : Bool) (m : String) (c : Nat) :
    mkDownloadResult request [] s m c =
      { request := request, bars := [], success := false, error_msg := m, total_count := c } :=
  rfl

/-- Characterisation of a passing `validate_request`. -/
theorem validate_request_true_iff (exs : List Exchange) (f : Interval → Bool)
    (r : DownloadRequest) :
    (BaseStockDownloader.validate_request exs f r).1 = true ↔
      exs.contains r.exchange = true ∧ f r.interval = true ∧ ¬ r.symbol = "" := by
  unfold BaseStockDownloader.validate_request
  split_ifs with h1 h2 h3 <;> simp_all

/-- The akshare adapter's interval support is exactly the daily interval. -/
theorem ak_supports_daily_only (i : Interval) :
    AkshareStockDownloader.is_support_interval i = true ↔ i = Interval.DAILY := by
  cases i <;> decide

/-- A request that passes the akshare adapter's validation is daily. -/
theorem ak_validate_interval_daily (r : DownloadRequest)
    (h : (AkshareStockDownloader.validate_request r).1 = true) :
    r.interval = Interval.DAILY := by
  have h' : (BaseStockDownloader.validate_request
      AkshareStockDownloader.get_supported_exchanges
      AkshareStockDownloader.is_support_interval r).1 = true := h
  exact (ak_supports_daily_only r.interval).mp
    ((validate_request_true_iff _ _ r).mp h').2.1

/-! ### Claims -/

/-- C1 (counterexample): a `DownloadResult` constructed with an empty bar
list and an explicitly passed `total_count = 5` keeps `total_count = 5`,
while `len(bars) = 0`, so "count always equals the bar sequence length"
fails as stated. -/
theorem C1_count_counterexample :
    ¬ ((mkDownloadResult reqAAPL [] false "" 5).total_count =
        (mkDownloadResult reqAAPL [] false "" 5).bars.length) := by
  decide

/-- C1 (amended): for every constructed `DownloadResult`, `success` is true
iff the bar sequence is non-empty; `total_count` equals the bar-sequence
length whenever the bars are non-empty, and otherwise keeps the explicitly
passed count value (so it equals the length only when that value is the
default `0`). -/
theorem C1_result_invariant (request : DownloadRequest) (bars : List BarData)
    (success : Bool) (msg : String) (count : Nat) :
    ((mkDownloadResult request bars success msg count).success = true ↔ bars ≠ []) ∧
    (bars ≠ [] → (mkDownloadResult request bars success msg count).total_count = bars.length) ∧
    (bars = [] → (mkDownloadResult request bars success msg count).total_count = count) := by
  rcases bars with _ | ⟨b, bs⟩ <;> simp [mkDownloadResult]

/-- C1 (witness): the amended invariant evaluated at concrete inputs. -/
theorem C1_result_invariant_witness :
    (mkDownloadResult reqAAPL [barSample] false "" 0).success = true ∧
    (mkDownloadResult reqAAPL [barSample] false "" 0).total_count = 1 ∧
    (mkDownloadResult reqAAPL [] true "boom" 7).total_count = 7 := by
  refine ⟨(C1_result_invariant reqAAPL [barSample] false "" 0).1.mpr (by simp),
    (C1_result_invariant reqAAPL [barSample] false "" 0).2.1 (by simp),
    (C1_result_invariant reqAAPL [] true "boom" 7).2.2 rfl⟩

/-- C9: on a non-empty bar list the constructed result's `success` is true
even when the caller explicitly passed `success=False`, whereas a
caller-supplied non-zero `total_count` survives unchanged when the bar list
is empty. -/
theorem C9_success_override_count_survival (request : DownloadRequest)
    (b : BarData) (bs : List BarData) (success : Bool) (msg : String) (count : Nat) :
    (mkDownloadResult request (b :: bs) false msg count).success = true ∧
    (mkDownloadResult request [] success msg count).total_count = count := by
  simp [mkDownloadResult]

/-- C3 (counterexample): the base-class default `is_support_interval`
answers `true` on `WEEKLY`, which is not a member of the default
`get_supported_intervals`, so the default is not the membership test the
claim describes. -/
theorem C3_weekly_counterexample :
    BaseStockDownloader.is_support_interval Interval.WEEKLY = true ∧
    BaseStockDownloader.get_supported_intervals.contains Interval.WEEKLY = false := by
  decide

/-- C3 (amended): the base-class default `is_support_interval` returns
`true` for every interval, unconditionally (it does not consult
`get_supported_intervals`; the concrete adapters override it with the
membership test). -/
theorem C3_default_interval_support (i : Interval) :
    BaseStockDownloader.is_support_interval i = true :=
  rfl

/-- C2: `validate_request` checks exchange support, then interval support,
then symbol non-emptiness, returning the message of the first violated
condition; in particular a request violating both the exchange check and
the symbol check gets the unsupported-exchange message, and a fully valid
request yields `(true, "")`. -/
theorem C2_validate_request_check_order (exs : List Exchange)
    (f : Interval → Bool) (r : DownloadRequest) :
    (exs.contains r.exchange = false →
      BaseStockDownloader.validate_request exs f r =
        (false, "不支持的交易所: " ++ exchangeStr r.exchange)) ∧
    (exs.contains r.exchange = true → f r.interval = false →
      BaseStockDownloader.validate_request exs f r =
        (false, "不支持的时间间隔: " ++ intervalStr r.interval)) ∧
    (exs.contains r.exchange = true → f r.interval = true → r.symbol = "" →
      BaseStockDownloader.validate_request exs f r = (false, "股票代码不能为空")) ∧
    (exs.contains r.exchange = true → f r.interval = true → r.symbol ≠ "" →
      BaseStockDownloader.validate_request exs f r = (true, "")) := by
  refine ⟨fun h1 => ?_, fun h1 h2 => ?_, fun h1 h2 h3 => ?_, fun h1 h2 h3 => ?_⟩ <;>
    simp_all [BaseStockDownloader.validate_request]

/-- C2 (witness): a request with both an unsupported exchange (SSE) and an
empty symbol gets the unsupported-exchange message under the base default
capabilities, and a fully valid request yields `(true, "")`. -/
theorem C2_validate_request_witness :
    BaseStockDownloader.validate_request BaseStockDownloader.get_supported_exchanges
      BaseStockDownloader.is_support_interval reqSSEempty =
      (false, "不支持的交易所: " ++ exchangeStr Exchange.SSE) ∧
    BaseStockDownloader.validate_request BaseStockDownloader.get_supported_exchanges
      BaseStockDownloader.is_support_interval reqAAPL = (true, "") := by
  refine ⟨(C2_validate_request_check_order _ _ reqSSEempty).1 (by decide),
    (C2_validate_request_check_order _ _ reqAAPL).2.2.2 (by decide) (by decide) (by decide)⟩

/-- C4: evaluating the akshare adapter at an initialized, minute-interval
request: because `is_support_interval` is overridden to daily-only,
`validate_request` already fails and `download_bars` returns the
unsupported-interval message — not the "仅支持日线数据" message that the
claim (and the repository's own test
`test_download_bars_unsupported_interval`) expects from the in-method
check, which is dead code. -/
theorem C4_minute_request_eval :
    (AkshareStockDownloader.download_bars true
        (AkshareStockDownloader.AkApiOutcome.hist none) reqMinute).error_msg =
      "不支持的时间间隔: Interval.MINUTE" ∧
    (AkshareStockDownloader.download_bars true
        (AkshareStockDownloader.AkApiOutcome.hist none) reqMinute).success = false ∧
    (AkshareStockDownloader.download_bars true
        (AkshareStockDownloader.AkApiOutcome.hist none) reqMinute).error_msg ≠
      "akshare美股数据目前仅支持日线数据" := by
  decide

/-- C10: any request that passes the akshare adapter's `validate_request`
has the daily interval, so the non-daily rejection branch inside
`download_bars` is unreachable: the method agrees with its variant from
which that branch is deleted, for every initialization state and provider
outcome. -/
theorem C10_daily_branch_unreachable (r : DownloadRequest)
    (h : (AkshareStockDownloader.validate_request r).1 = true) :
    r.interval = Interval.DAILY ∧
    ∀ (init : Bool) (api : AkshareStockDownloader.AkApiOutcome),
      AkshareStockDownloader.download_bars init api r =
        AkshareStockDownloader.download_bars_skip_daily_check init api r := by
  have hd := ak_validate_interval_daily r h
  refine ⟨hd, fun init api => ?_⟩
  unfold AkshareStockDownloader.download_bars
    AkshareStockDownloader.download_bars_skip_daily_check
  simp [h, hd]

/-- C10 (witness): the unreachability statement applied at the concrete
valid request. -/
theorem C10_daily_branch_unreachable_witness :
    reqAAPL.interval = Interval.DAILY ∧
    AkshareStockDownloader.download_bars false
        AkshareStockDownloader.AkApiOutcome.unavailable reqAAPL =
      AkshareStockDownloader.download_bars_skip_daily_check false
        AkshareStockDownloader.AkApiOutcome.unavailable reqAAPL := by
  have h := C10_daily_branch_unreachable reqAAPL (by decide)
  exact ⟨h.1, h.2 false AkshareStockDownloader.AkApiOutcome.unavailable⟩

/-- C5: for a validated, initialized download whose provider call completes
without fault but whose conversion yields zero bars, both the yfinance and
the akshare adapter return `success=false`, an empty bar list and the
"未获取到数据或股票代码不存在" message (which carries the "未获取到数据" /
no-data wording): an empty provider table is a soft failure, never a
success. -/
theorem C5_zero_bars_soft_failure (r1 r2 : DownloadRequest)
    (ydf : Option YfDF) (adf adf2 : Option AkDF)
    (hv1 : (YfinanceStockDownloader.validate_request r1).1 = true)
    (hc1 : YfinanceStockDownloader.convert_yf_data_to_vnpy ydf r1.symbol r1.exchange r1.interval = some [])
    (hv2 : (AkshareStockDownloader.validate_request r2).1 = true)
    (hf : AkshareStockDownloader.akFilterByDate r2.start_date r2.end_date adf = some adf2)
    (hc2 : AkshareStockDownloader.convert_ak_data_to_vnpy adf2 r2.symbol r2.exchange r2.interval = []) :
    (YfinanceStockDownloader.download_bars true
        (YfinanceStockDownloader.YfApiOutcome.ok ydf) r1).success = false ∧
    (YfinanceStockDownloader.download_bars true
        (YfinanceStockDownloader.YfApiOutcome.ok ydf) r1).bars = [] ∧
    (YfinanceStockDownloader.download_bars true
        (YfinanceStockDownloader.YfApiOutcome.ok ydf) r1).error_msg = "未获取到数据或股票代码不存在" ∧
    (AkshareStockDownloader.download_bars true
        (AkshareStockDownloader.AkApiOutcome.hist adf) r2).success = false ∧
    (AkshareStockDownloader.download_bars true
        (AkshareStockDownloader.AkApiOutcome.hist adf) r2).bars = [] ∧
    (AkshareStockDownloader.download_bars true
        (AkshareStockDownloader.AkApiOutcome.hist adf) r2).error_msg = "未获取到数据或股票代码不存在" := by
  have hd2 := ak_validate_interval_daily r2 hv2
  rw [hd2] at hc2
  unfold YfinanceStockDownloader.download_bars AkshareStockDownloader.download_bars
  simp [hv1, hv2, hd2, hc1, hf, hc2, mkDownloadResult]

/-- C5 (witness): the soft-failure statement applied to empty provider
frames at a concrete valid request. -/
theorem C5_zero_bars_soft_failure_witness :
    (YfinanceStockDownloader.download_bars true
        (YfinanceStockDownloader.YfApiOutcome.ok (some { rows := [] })) reqAAPL).success = false ∧
    (YfinanceStockDownloader.download_bars true
        (YfinanceStockDownloader.YfApiOutcome.ok (some { rows := [] })) reqAAPL).bars = [] ∧
    (YfinanceStockDownloader.download_bars true
        (YfinanceStockDownloader.YfApiOutcome.ok (some { rows := [] })) reqAAPL).error_msg = "未获取到数据或股票代码不存在" ∧
    (AkshareStockDownloader.download_bars true
        (AkshareStockDownloader.AkApiOutcome.hist (some { columns := akLowerCols, rows := [] })) reqAAPL).success = false ∧
    (AkshareStockDownloader.download_bars true
        (AkshareStockDownloader.AkApiOutcome.hist (some { columns := akLowerCols, rows := [] })) reqAAPL).bars = [] ∧
    (AkshareStockDownloader.download_bars true
        (AkshareStockDownloader.AkApiOutcome.hist (some { columns := akLowerCols, rows := [] })) reqAAPL).error_msg = "未获取到数据或股票代码不存在" :=
  C5_zero_bars_soft_failure reqAAPL reqAAPL
    (some { rows := [] }) (some { columns := akLowerCols, rows := [] })
    (some { columns := akLowerCols, rows := [] })
    (by decide) rfl (by decide) rfl rfl

/-- C6: converting a row that carries its OHLCV data under lowercase
column names and converting the same data under capitalized column names
produce the same result, in particular Bar Records with identical
`open_price`, `high_price`, `low_price`, `close_price` and `volume`
fields. -/
theorem C6_column_case_roundtrip (sym : String) (ex : Exchange) (iv : Interval)
    (idx d : String) (o h l c v : Rat) :
    AkshareStockDownloader.convertAkRow akLowerCols sym ex iv idx (akLowerRow d o h l c v) =
      AkshareStockDownloader.convertAkRow akUpperCols sym ex iv idx (akUpperRow d o h l c v) :=
  rfl

/-- C7: in `_convert_ak_data_to_vnpy` a row whose conversion raises is
skipped and processing continues, so a 3-row frame with exactly one
malformed row yields exactly the 2 Bar Records of the well-formed rows
(the conversion itself never raises: it totally returns a list). -/
theorem C7_malformed_row_skipped (cols : List String) (sym : String)
    (ex : Exchange) (iv : Interval) (i1 i2 i3 : String) (r1 r2 r3 : PyRow)
    (b1 b3 : BarData)
    (h1 : AkshareStockDownloader.convertAkRow cols sym ex iv i1 r1 = some b1)
    (h2 : AkshareStockDownloader.convertAkRow cols sym ex iv i2 r2 = none)
    (h3 : AkshareStockDownloader.convertAkRow cols sym ex iv i3 r3 = some b3) :
    AkshareStockDownloader.convert_ak_data_to_vnpy
        (some { columns := cols, rows := [(i1, r1), (i2, r2), (i3, r3)] }) sym ex iv = [b1, b3] ∧
    (AkshareStockDownloader.convert_ak_data_to_vnpy
        (some { columns := cols, rows := [(i1, r1), (i2, r2), (i3, r3)] }) sym ex iv).length = 2 := by
  constructor <;>
    simp [AkshareStockDownloader.convert_ak_data_to_vnpy, h1, h2, h3]

/-- C7 (witness): the concrete 3-row frame with a non-numeric `open` cell
in its middle row converts to exactly the two bars of the good rows. -/
theorem C7_malformed_row_skipped_witness :
    AkshareStockDownloader.convert_ak_data_to_vnpy (some akSampleDF)
        "AAPL" Exchange.NYSE Interval.DAILY = [akBar1, akBar3] ∧
    (AkshareStockDownloader.convert_ak_data_to_vnpy (some akSampleDF)
        "AAPL" Exchange.NYSE Interval.DAILY).length = 2 :=
  C7_malformed_row_skipped akLowerCols "AAPL" Exchange.NYSE Interval.DAILY
    "0" "1" "2" akGoodRow1 akBadRow akGoodRow3 akBar1 akBar3
    (by decide) (by decide) (by decide)

/-- C8: for a validated request on an initialized native-feed adapter, the
bars of the returned result are exactly the provider's bars passed through
the provenance pass, and that pass leaves a bar with a non-empty
`gateway_name` completely unchanged while a bar with an empty
`gateway_name` gets exactly the fixed fallback tag `"vnpy_datafeed"` with
every other field unchanged. -/
theorem C8_gateway_provenance (r : DownloadRequest) (bars : List BarData)
    (hv : (VnpyStockDownloader.validate_request r).1 = true) :
    (VnpyStockDownloader.download_bars true
        (VnpyStockDownloader.VnpyFeedOutcome.ok bars) r).bars =
      bars.map VnpyStockDownloader.fixGatewayName ∧
    ∀ b : BarData,
      (b.gateway_name ≠ "" → VnpyStockDownloader.fixGatewayName b = b) ∧
      (b.gateway_name = "" →
        VnpyStockDownloader.fixGatewayName b = { b with gateway_name := "vnpy_datafeed" }) := by
  constructor
  · unfold VnpyStockDownloader.download_bars
    simp [hv, mkDownloadResult_bars]
  · intro b
    constructor <;> intro hb <;> simp [VnpyStockDownloader.fixGatewayName, hb]

/-- C8 (witness): a feed returning one bar tagged `"existing_gateway"` and
one untagged sibling: the first is unchanged, the second gets the fallback
tag. -/
theorem C8_gateway_provenance_witness :
    (VnpyStockDownloader.download_bars true
        (VnpyStockDownloader.VnpyFeedOutcome.ok [barExisting, barNoGw]) reqAAPL).bars =
      [barExisting, barNoGw].map VnpyStockDownloader.fixGatewayName ∧
    VnpyStockDownloader.fixGatewayName barExisting = barExisting ∧
    VnpyStockDownloader.fixGatewayName barNoGw = { barNoGw with gateway_name := "vnpy_datafeed" } := by
  have h := C8_gateway_provenance reqAAPL [barExisting, barNoGw] (by decide)
  exact ⟨h.1, (h.2 barExisting).1 (by decide), (h.2 barNoGw).2 rfl⟩

end VnpyAk
